import Mathlib

/-!
Verification development for the Portal Financiero application
(`app/models.py`, `app/auth/routes.py`, `app/mfa/routes.py`,
`app/finance/routes.py`).

The persistent database (users, accounts, transactions, OTP codes) is
modelled as explicit lists of records; the Flask session is a record of
the four session keys the application uses.  Each route handler becomes a
pure function from the pre-state (database, session, form fields) to the
post-state together with an outcome value (`Res`) that stands for the
flash-message/redirect the handler produces.  Monetary values are `ℚ`
(Python `Decimal`), timestamps are `ℤ` (minutes, matching the
`OTP_EXP_MINUTES` unit used in the expiry comparison).

External collaborators are parameters:
* `parse : String → Option ℚ` stands for `decimal.Decimal` construction
  (`none` = the constructor raised);
* the random 6-digit code generator of `_generate_otp_code` is passed in
  as an explicit `otpCode : String` argument;
* password hashing is a `String → String` parameter;
* e-mail delivery has no observable state and is dropped.

Auto-increment primary keys are modelled as `max existing id + 1`;
primary keys are unique in any reachable database state.  String helpers
(`pyStrip`, `pyLower`, …) re-implement the Python `str` methods used by
the source structurally over the character list so that all definitions
evaluate.
-/

/-- Python `str.strip()` (with no arguments): remove leading and trailing
whitespace. -/
def pyStrip (s : String) : String :=
  ⟨((s.data.dropWhile Char.isWhitespace).reverse.dropWhile Char.isWhitespace).reverse⟩

/-- Python `str.lower()` restricted to the ASCII range (enough for the
strings the application manipulates). -/
def pyLower (s : String) : String :=
  ⟨s.data.map Char.toLower⟩

/-- Python `s or d` for strings: `d` when `s` is empty, else `s`. -/
def strOr (s d : String) : String :=
  if s = "" then d else s

/-- Digit-string to `Nat` (`none` if empty or a non-digit occurs).  Used
both for the SQL integer coercion of form-supplied account ids and inside
`parseDec`. -/
def digitsNat? (cs : List Char) : Option Nat :=
  if cs = [] then none
  else cs.foldl (fun acc c => acc.bind fun n =>
    if c.isDigit then some (10 * n + (c.toNat - 48)) else none) (some 0)

/-- Split a character list at the first dot. -/
def csSplitDot : List Char → List Char × Option (List Char)
  | [] => ([], none)
  | c :: rest =>
    if c = '.' then ([], some rest)
    else
      let (ip, fp) := csSplitDot rest
      (c :: ip, fp)

/-- Modelled from the spec: the external decimal parser
(`decimal.Decimal`, §6 "Monetary amounts are decimal with two fraction
digits of precision; parsing failures … are rejected"), restricted to
plain signed fixed-point literals.  The operation definitions below take
the parser as a parameter; `parseDec` is the concrete instance used to
run them on concrete inputs. -/
def parseDec (s : String) : Option ℚ :=
  let (neg, cs) :=
    match s.data with
    | '-' :: r => (true, r)
    | '+' :: r => (false, r)
    | cs => (false, cs)
  let q? : Option ℚ :=
    match csSplitDot cs with
    | (ip, none) => (digitsNat? ip).map (fun n => (n : ℚ))
    | (ip, some fp) =>
      match digitsNat? ip, digitsNat? fp with
      | some ni, some nf => some ((ni : ℚ) + (nf : ℚ) / ((10 : ℚ) ^ fp.length))
      | _, _ => none
  q?.map (fun q => if neg then -q else q)

/-- Model of `User` from `app/models.py` (mirrors the column list). -/
structure User where
  id : Nat
  email : String
  password_hash : String
  email_verified : Bool
  created_at : Int
deriving DecidableEq

/-- Model of `OtpCode` from `app/models.py`. -/
structure OtpCode where
  id : Nat
  user_id : Nat
  code : String
  created_at : Int
  used : Bool
deriving DecidableEq

/-- Model of `Account` from `app/models.py`. -/
structure Account where
  id : Nat
  user_id : Nat
  bank_type : String
  name : String
  balance : ℚ
deriving DecidableEq

/-- Model of `Transaction` from `app/models.py` (the DB-assigned primary key is omitted:
nothing in the source reads it). -/
structure Transaction where
  account_id : Nat
  date : Int
  description : String
  amount : ℚ
  type : String
  counterparty_account_id : Option Nat
  counterparty_email : Option String
deriving DecidableEq

/-- The whole persistent store. -/
structure DB where
  users : List User
  accounts : List Account
  transactions : List Transaction
  otps : List OtpCode
deriving DecidableEq

/-- The pending-operation payload stored in the session by
`_start_operation_otp`.  The source stores `{"name": op_name, "payload":
dict-of-raw-strings}`; since staging only ever writes the three
`(name, payload-shape)` combinations below, the pair is modelled as a
closed sum.  The display-only `title`/`detail`/`created_at` entries of the
session dict are not read by any control flow and are omitted.
Account-id fields are the raw `request.form` values (`none` when the field
was absent from the form). -/
inductive OpPayload where
  | create_account (bank_type name initial_balance : String)
  | transfer_internal (from_account_id to_account_id : Option String)
      (amount description : String)
  | transfer_external (from_account_id : Option String)
      (recipient_email amount description : String)
deriving DecidableEq

/-- The Flask session: the four keys the application uses
(`user_id`, `pending_otp_user_id`, `pending_operation`,
`pending_operation_otp_id`). -/
structure Session where
  user_id : Option Nat
  pending_otp_user_id : Option Nat
  pending_operation : Option OpPayload
  pending_operation_otp_id : Option Nat
deriving DecidableEq

/-- Outcome of a request handler: which flash/redirect the source
produces.  One constructor per distinct outcome. -/
inductive Res where
  | redirectLogin
  | notFound404
  | registered
  | errMissingFields
  | errEmailTaken
  | redirectDashboard
  | mfaOk
  | otpSent
  | otpResent
  | cancelled
  | noPendingOperation
  | missingCode
  | otpUsedOrMissing
  | invalidCode
  | otpExpired
  | errInvalidBankType
  | errInvalidAlias
  | errInvalidInitialBalance
  | errSameAccount
  | errInvalidAmount
  | errAccountsNotFound
  | errFromAccountNotFound
  | errInsufficientFunds
  | errMissingRecipient
  | errRecipientNotFound
  | errRecipientHasNoAccount
  | createOk
  | internalOk
  | externalOk
deriving DecidableEq

/-- The `BANK_TYPES` list from `app/finance/routes.py`. -/
def BANK_TYPES : List String := ["NEQUI", "BANCOLOMBIA", "DAVIPLATA", "NU", "OTRO"]

/-- Auto-increment id for a freshly inserted `User` row. -/
def nextUserId (l : List User) : Nat := (l.map (fun u => u.id)).foldr max 0 + 1

/-- Auto-increment id for a freshly inserted `Account` row. -/
def nextAccountId (l : List Account) : Nat := (l.map (fun a => a.id)).foldr max 0 + 1

/-- Auto-increment id for a freshly inserted `OtpCode` row. -/
def nextOtpId (l : List OtpCode) : Nat := (l.map (fun o => o.id)).foldr max 0 + 1

/-- The ORM object mutation `acc.balance = f(acc.balance)` followed by
commit, addressed by primary key. -/
def updateBalance (l : List Account) (i : Nat) (f : ℚ → ℚ) : List Account :=
  l.map fun a => if a.id = i then { a with balance := f a.balance } else a

/-- The mutation `otp.used = True` followed by commit, addressed by primary key. -/
def markUsed (l : List OtpCode) (i : Nat) : List OtpCode :=
  l.map fun o => if o.id = i then { o with used := true } else o

/-- Balance of the account with primary key `i` (0 if absent). -/
def balanceOf : List Account → Nat → ℚ
  | [], _ => 0
  | a :: t, i => if a.id = i then a.balance else balanceOf t i

/-- Sum of the amounts of the transactions recorded against account `i`. -/
def txSum (txs : List Transaction) (i : Nat) : ℚ :=
  ((txs.filter (fun t => decide (t.account_id = i))).map (fun t => t.amount)).sum

/-- The ledger invariant of the spec (§3): every account's balance equals
the sum of its transaction amounts. -/
@[reducible] def ledgerInvL (accs : List Account) (txs : List Transaction) : Prop :=
  ∀ a ∈ accs, a.balance = txSum txs a.id

@[reducible] def LedgerInv (db : DB) : Prop := ledgerInvL db.accounts db.transactions

/-- Referential integrity of `Transaction.account_id` (a foreign key in
`app/models.py`, guaranteed by the storage collaborator). -/
@[reducible] def TxFK (db : DB) : Prop :=
  ∀ t ∈ db.transactions, ∃ a ∈ db.accounts, t.account_id = a.id

/-- Referential integrity of `Account.user_id`. -/
@[reducible] def AccFK (db : DB) : Prop :=
  ∀ a ∈ db.accounts, ∃ u ∈ db.users, a.user_id = u.id

/-- The query `Account.query.filter_by(id=form_value, user_id=uid).first()`:
the raw form string is coerced to an integer key by the storage layer
(digits only — non-numeric strings match no row, like `id=None`). -/
def findAccountBy (accs : List Account) (sid : Option String) (uid : Nat) : Option Account :=
  (sid.bind fun s => digitsNat? s.data).bind fun i =>
    accs.find? fun a => decide (a.id = i ∧ a.user_id = uid)

/-- Model of `_clear_pending_operation` (`app/finance/routes.py`): pops both
pending-operation session keys. -/
def _clear_pending_operation (s : Session) : Session :=
  { s with pending_operation := none, pending_operation_otp_id := none }

/-- Model of `_start_operation_otp` (`app/finance/routes.py`): persist a fresh
unused OTP row for `user`, store the pending operation and the new OTP's
id in the session, send the e-mail (dropped). -/
def _start_operation_otp (db : DB) (sess : Session) (user : User)
    (payload : OpPayload) (otpCode : String) (now : Int) : DB × Session × Res :=
  ({ db with otps := db.otps ++ [⟨nextOtpId db.otps, user.id, otpCode, now, false⟩] },
   { sess with pending_operation := some payload,
               pending_operation_otp_id := some (nextOtpId db.otps) },
   Res.otpSent)

/-- Model of `_execute_create_account` (`app/finance/routes.py` 76–112). -/
def _execute_create_account (db : DB) (user : User)
    (bank_type name initial_balance_raw : String)
    (parse : String → Option ℚ) (now : Int) : DB × Res :=
  if bank_type ∉ BANK_TYPES then (db, Res.errInvalidBankType)
  else if name = "" then (db, Res.errInvalidAlias)
  else
    match parse (strOr (pyStrip (strOr initial_balance_raw "0")) "0") with
    | none => (db, Res.errInvalidInitialBalance)
    | some initial_balance =>
      (({ db with
          accounts := db.accounts ++
            [⟨nextAccountId db.accounts, user.id, bank_type, name, initial_balance⟩],
          transactions := db.transactions ++
            (if initial_balance ≠ 0 then
              [⟨nextAccountId db.accounts, now, "Saldo inicial", initial_balance,
                "INGRESO", none, none⟩]
             else []) }),
       Res.createOk)

/-- The shared parse step `amount = Decimal((raw or "").strip()); if amount <= 0: raise`
(shared by the two `_execute_transfer_*` helpers). -/
def parseAmount (parse : String → Option ℚ) (raw : String) : Option ℚ :=
  match parse (pyStrip raw) with
  | none => none
  | some q => if q ≤ 0 then none else some q

/-- The balance mutations plus the paired transaction inserts shared by
both transfer helpers (balances first, then `tx_out`/`tx_in`, one
commit). -/
def applyTransfer (db : DB) (from_acc to_acc : Account) (amount : ℚ)
    (description : String) (outEmail inEmail : Option String) (now : Int) : DB :=
  { db with
    accounts := updateBalance (updateBalance db.accounts from_acc.id
                  (fun b => b - amount)) to_acc.id (fun b => b + amount),
    transactions := db.transactions ++
      [⟨from_acc.id, now, description, -amount, "TRANSFER_OUT", some to_acc.id, outEmail⟩,
       ⟨to_acc.id, now, description, amount, "TRANSFER_IN", some from_acc.id, inEmail⟩] }

/-- Model of `_execute_transfer_internal` (`app/finance/routes.py` 115–162). -/
def _execute_transfer_internal (db : DB) (user : User)
    (from_id to_id : Option String) (amount_raw description : String)
    (parse : String → Option ℚ) (now : Int) : DB × Res :=
  if from_id = to_id then (db, Res.errSameAccount)
  else
    match parseAmount parse amount_raw with
    | none => (db, Res.errInvalidAmount)
    | some amount =>
      match findAccountBy db.accounts from_id user.id,
            findAccountBy db.accounts to_id user.id with
      | some from_acc, some to_acc =>
        if from_acc.balance < amount then (db, Res.errInsufficientFunds)
        else (applyTransfer db from_acc to_acc amount description none none now,
              Res.internalOk)
      | _, _ => (db, Res.errAccountsNotFound)

/-- Model of `_execute_transfer_external` (`app/finance/routes.py` 165–223). -/
def _execute_transfer_external (db : DB) (user : User)
    (from_id : Option String) (recipient_email amount_raw description : String)
    (parse : String → Option ℚ) (now : Int) : DB × Res :=
  if recipient_email = "" then (db, Res.errMissingRecipient)
  else
    match parseAmount parse amount_raw with
    | none => (db, Res.errInvalidAmount)
    | some amount =>
      match findAccountBy db.accounts from_id user.id with
      | none => (db, Res.errFromAccountNotFound)
      | some from_acc =>
        if from_acc.balance < amount then (db, Res.errInsufficientFunds)
        else
          match db.users.find? (fun u => decide (u.email = recipient_email)) with
          | none => (db, Res.errRecipientNotFound)
          | some recipient =>
            match db.accounts.find? (fun a => decide (a.user_id = recipient.id)) with
            | none => (db, Res.errRecipientHasNoAccount)
            | some to_acc =>
              (applyTransfer db from_acc to_acc amount description
                 (some recipient.email) (some user.email) now,
               Res.externalOk)

/-- Model of the `register` POST handler (`app/auth/routes.py` 21–71): creates the user, then
the seed `Account` (bank type left at the column default `"OTRO"`), then
the seed deposit `Transaction`.  The verification e-mail has no model
state. -/
def register (db : DB) (sess : Session) (email_form password_form : Option String)
    (hashPw : String → String) (now : Int) : DB × Res :=
  if sess.user_id.isSome then (db, Res.redirectDashboard)
  else
    if pyStrip (pyLower (email_form.getD "")) = "" ∨ password_form.getD "" = "" then
      (db, Res.errMissingFields)
    else
      match db.users.find?
          (fun u => decide (u.email = pyStrip (pyLower (email_form.getD "")))) with
      | some _ => (db, Res.errEmailTaken)
      | none =>
        ({ db with
           users := db.users ++ [⟨nextUserId db.users, pyStrip (pyLower (email_form.getD "")),
             hashPw (password_form.getD ""), false, now⟩],
           accounts := db.accounts ++
             [⟨nextAccountId db.accounts, nextUserId db.users, "OTRO",
               "Cuenta Ahorros Principal", 1500000⟩],
           transactions := db.transactions ++
             [⟨nextAccountId db.accounts, now, "Depósito inicial", 1500000,
               "ingreso", none, none⟩] },
         Res.registered)

/-- Model of the `verify_otp` POST handler (`app/mfa/routes.py` 7–45): the login-time OTP
check.  `OtpCode.query.filter_by(user_id=…, code=…, used=False)
.order_by(created_at.desc()).first()` is modelled by `mostRecent` over the
filtered rows (`order_by` ties are storage-dependent; `mostRecent` keeps
the earliest-inserted of tied rows). -/
def mostRecent : List OtpCode → Option OtpCode
  | [] => none
  | o :: rest =>
    match mostRecent rest with
    | none => some o
    | some b => if b.created_at > o.created_at then some b else some o

def verify_otp (db : DB) (sess : Session) (code_form : Option String)
    (now maxAge : Int) : DB × Session × Res :=
  match sess.pending_otp_user_id with
  | none => (db, sess, Res.redirectLogin)
  | some uid =>
    match db.users.find? (fun u => decide (u.id = uid)) with
    | none => (db, sess, Res.notFound404)
    | some user =>
      let code := pyStrip (code_form.getD "")
      if code = "" then (db, sess, Res.missingCode)
      else
        match mostRecent (db.otps.filter
            (fun o => decide (o.user_id = user.id ∧ o.code = code ∧ o.used = false))) with
        | none => (db, sess, Res.invalidCode)
        | some otp =>
          if otp.created_at < now - maxAge then (db, sess, Res.otpExpired)
          else
            ({ db with otps := markUsed db.otps otp.id },
             { sess with pending_otp_user_id := none, user_id := some user.id },
             Res.mfaOk)

/-- Modelled from the spec (§4.5, claim C4): "the most recently issued
unused challenge for that user" — the spec-side selection rule, for
comparison with what `verify_otp` actually queries. -/
def latestUnusedChallengeSpec (db : DB) (uid : Nat) : Option OtpCode :=
  mostRecent (db.otps.filter (fun o => decide (o.user_id = uid ∧ o.used = false)))

/-- Model of the `create_account` route (`app/finance/routes.py` 363–405): the staging
phase of account creation. -/
def create_account (db : DB) (sess : Session)
    (bank_type_form name_form initial_form : Option String)
    (parse : String → Option ℚ) (otpCode : String) (now : Int) : DB × Session × Res :=
  match sess.user_id with
  | none => (db, sess, Res.redirectLogin)
  | some uid =>
    match db.users.find? (fun u => decide (u.id = uid)) with
    | none => (db, sess, Res.notFound404)
    | some user =>
      let bank_type := bank_type_form.getD "OTRO"
      let name := pyStrip (name_form.getD "")
      let initial_balance_raw := strOr (pyStrip (initial_form.getD "0")) "0"
      if bank_type ∉ BANK_TYPES then (db, sess, Res.errInvalidBankType)
      else if name = "" then (db, sess, Res.errInvalidAlias)
      else
        match parse initial_balance_raw with
        | none => (db, sess, Res.errInvalidInitialBalance)
        | some _ =>
          _start_operation_otp db sess user
            (OpPayload.create_account bank_type name initial_balance_raw) otpCode now

/-- Model of the `transfer_internal` route (`app/finance/routes.py` 407–464): the
staging phase of an internal transfer (validation, preliminary balance
check, OTP issue). -/
def transfer_internal (db : DB) (sess : Session)
    (from_form to_form amount_form desc_form : Option String)
    (parse : String → Option ℚ) (otpCode : String) (now : Int) : DB × Session × Res :=
  match sess.user_id with
  | none => (db, sess, Res.redirectLogin)
  | some uid =>
    match db.users.find? (fun u => decide (u.id = uid)) with
    | none => (db, sess, Res.notFound404)
    | some user =>
      let amount_raw := pyStrip (amount_form.getD "")
      let description := strOr (pyStrip (desc_form.getD "")) "Transferencia interna"
      if from_form = to_form then (db, sess, Res.errSameAccount)
      else
        match parse amount_raw with
        | none => (db, sess, Res.errInvalidAmount)
        | some amount =>
          if amount ≤ 0 then (db, sess, Res.errInvalidAmount)
          else
            match findAccountBy db.accounts from_form user.id,
                  findAccountBy db.accounts to_form user.id with
            | some from_acc, some _ =>
              if from_acc.balance < amount then (db, sess, Res.errInsufficientFunds)
              else
                _start_operation_otp db sess user
                  (OpPayload.transfer_internal from_form to_form amount_raw description)
                  otpCode now
            | _, _ => (db, sess, Res.errAccountsNotFound)

/-- Model of the `transfer_external` route (`app/finance/routes.py` 466–532): the
staging phase of a cross-user transfer. -/
def transfer_external (db : DB) (sess : Session)
    (from_form recipient_form amount_form desc_form : Option String)
    (parse : String → Option ℚ) (otpCode : String) (now : Int) : DB × Session × Res :=
  match sess.user_id with
  | none => (db, sess, Res.redirectLogin)
  | some uid =>
    match db.users.find? (fun u => decide (u.id = uid)) with
    | none => (db, sess, Res.notFound404)
    | some sender =>
      let recipient_email := pyStrip (pyLower (recipient_form.getD ""))
      let amount_raw := pyStrip (amount_form.getD "")
      let description := strOr (pyStrip (desc_form.getD "")) "Transferencia a otro usuario"
      if recipient_email = "" then (db, sess, Res.errMissingRecipient)
      else
        match parse amount_raw with
        | none => (db, sess, Res.errInvalidAmount)
        | some amount =>
          if amount ≤ 0 then (db, sess, Res.errInvalidAmount)
          else
            match findAccountBy db.accounts from_form sender.id with
            | none => (db, sess, Res.errFromAccountNotFound)
            | some from_acc =>
              if from_acc.balance < amount then (db, sess, Res.errInsufficientFunds)
              else
                match db.users.find? (fun u => decide (u.email = recipient_email)) with
                | none => (db, sess, Res.errRecipientNotFound)
                | some recipient =>
                  match db.accounts.find? (fun a => decide (a.user_id = recipient.id)) with
                  | none => (db, sess, Res.errRecipientHasNoAccount)
                  | some _ =>
                    _start_operation_otp db sess sender
                      (OpPayload.transfer_external from_form recipient_email
                        amount_raw description)
                      otpCode now

/-- The operation dispatch of `confirmar_operacion` (`app/finance/routes.py`
269–294): the stored payload strings are handed to the matching
`_execute_*` helper, re-applying the same `strip`/`lower`/default
transformations the source performs at the call sites. -/
def dispatchOp (db1 : DB) (user : User) (op : OpPayload)
    (parse : String → Option ℚ) (now : Int) : DB × Res :=
  match op with
  | OpPayload.create_account bt nm ib =>
    _execute_create_account db1 user bt (pyStrip nm) ib parse now
  | OpPayload.transfer_internal fi ti am ds =>
    _execute_transfer_internal db1 user fi ti am
      (strOr (pyStrip ds) "Transferencia interna") parse now
  | OpPayload.transfer_external fi re am ds =>
    _execute_transfer_external db1 user fi (pyStrip (pyLower re)) am
      (strOr (pyStrip ds) "Transferencia a otro usuario") parse now

/-- Model of the `confirmar_operacion` POST handler (`app/finance/routes.py` 226–305): OTP
validation scoped to the session's stored challenge id, then mark-used
(first commit) + descriptor clear, then dispatch to the `_execute_*`
helper (second commit). -/
def confirmar_operacion (db : DB) (sess : Session) (code_form : Option String)
    (parse : String → Option ℚ) (now maxAge : Int) : DB × Session × Res :=
  match sess.user_id with
  | none => (db, sess, Res.redirectLogin)
  | some uid =>
    match sess.pending_operation, sess.pending_operation_otp_id with
    | some op, some otp_id =>
      match db.users.find? (fun u => decide (u.id = uid)) with
      | none => (db, sess, Res.notFound404)
      | some user =>
        let code := pyStrip (code_form.getD "")
        if code = "" then (db, sess, Res.missingCode)
        else
          match db.otps.find? (fun o => decide (o.id = otp_id ∧ o.user_id = user.id)) with
          | none => (db, _clear_pending_operation sess, Res.otpUsedOrMissing)
          | some otp =>
            if otp.used then (db, _clear_pending_operation sess, Res.otpUsedOrMissing)
            else if otp.code ≠ code then (db, sess, Res.invalidCode)
            else if otp.created_at < now - maxAge then (db, sess, Res.otpExpired)
            else
              let p := dispatchOp { db with otps := markUsed db.otps otp.id }
                user op parse now
              (p.1, _clear_pending_operation sess, p.2)
    | _, _ => (db, sess, Res.noPendingOperation)

/-- Model of `cancelar_operacion` (`app/finance/routes.py` 308–313). -/
def cancelar_operacion (db : DB) (sess : Session) : DB × Session × Res :=
  match sess.user_id with
  | none => (db, sess, Res.redirectLogin)
  | some _ => (db, _clear_pending_operation sess, Res.cancelled)

/-- Model of `reenviar_otp_operacion` (`app/finance/routes.py` 316–334): issue a
fresh OTP row and re-point the session's challenge id at it; the pending
operation itself is untouched. -/
def reenviar_otp_operacion (db : DB) (sess : Session) (otpCode : String)
    (now : Int) : DB × Session × Res :=
  match sess.user_id with
  | none => (db, sess, Res.redirectLogin)
  | some uid =>
    match sess.pending_operation with
    | none => (db, sess, Res.noPendingOperation)
    | some _ =>
      match db.users.find? (fun u => decide (u.id = uid)) with
      | none => (db, sess, Res.notFound404)
      | some user =>
        ({ db with otps := db.otps ++ [⟨nextOtpId db.otps, user.id, otpCode, now, false⟩] },
         { sess with pending_operation_otp_id := some (nextOtpId db.otps) },
         Res.otpResent)


/-! ### Concrete scenarios used by the claim counterexamples and witnesses -/

/-- Shared conclusion shape for C1: the two rows appended by a successful
transfer and the preservation of the two involved balances. -/
@[reducible] def transferPairOk (old new : DB) (fid tid : Nat) (q : ℚ) : Prop :=
  (∃ txOut txIn : Transaction,
     new.transactions = old.transactions ++ [txOut, txIn] ∧
     txOut.account_id = fid ∧ txIn.account_id = tid ∧
     txOut.amount = -q ∧ txIn.amount = q ∧ txOut.amount + txIn.amount = 0) ∧
  balanceOf new.accounts fid + balanceOf new.accounts tid
    = balanceOf old.accounts fid + balanceOf old.accounts tid

def dbC1 : DB := ⟨[⟨1, "a@x.com", "h", true, 0⟩, ⟨2, "b@x.com", "h", true, 0⟩],
  [⟨1, 1, "NEQUI", "A", 50⟩, ⟨2, 1, "NU", "B", 0⟩, ⟨3, 2, "OTRO", "C", 5⟩], [], []⟩

def userC1 : User := ⟨1, "a@x.com", "h", true, 0⟩

def dbC2 : DB := ⟨[⟨1, "a@x.com", "h", true, 0⟩],
  [⟨1, 1, "NEQUI", "A", 50⟩, ⟨2, 1, "NU", "B", 0⟩],
  [⟨1, 0, "Saldo inicial", 50, "INGRESO", none, none⟩], []⟩

def dbC3 : DB := ⟨[⟨1, "a@x.com", "h", true, 0⟩],
  [⟨1, 1, "NEQUI", "A", 50⟩, ⟨2, 1, "NU", "B", 0⟩], [], [⟨1, 1, "123456", 0, false⟩]⟩

def sessC3 : Session :=
  ⟨some 1, none, some (OpPayload.transfer_internal (some "1") (some "2") "30" "d"), some 1⟩

def dbC4 : DB := ⟨[⟨1, "a@x.com", "h", true, 0⟩], [], [],
  [⟨1, 1, "111111", 0, false⟩, ⟨2, 1, "222222", 3, false⟩]⟩

def sessC4 : Session := ⟨none, some 1, none, none⟩

def dbC4w : DB := ⟨[⟨1, "a@x.com", "h", true, 0⟩], [], [], [⟨1, 1, "111111", 0, false⟩]⟩

def dbC5 : DB := ⟨[⟨1, "a@x.com", "h", true, 0⟩], [], [], []⟩

def sessC5 : Session := ⟨some 1, none, none, none⟩

def dbC6 : DB := ⟨[⟨1, "a@x.com", "h", true, 0⟩],
  [⟨1, 1, "NEQUI", "A", 10⟩, ⟨2, 1, "NU", "B", 0⟩], [], [⟨1, 1, "123456", 0, false⟩]⟩

def sessC6 : Session :=
  ⟨some 1, none, some (OpPayload.transfer_internal (some "1") (some "2") "30" "d"), some 1⟩

def dbC7a : DB := ⟨[⟨1, "a@x.com", "h", true, 0⟩],
  [⟨1, 1, "NEQUI", "A", 50⟩, ⟨2, 1, "NU", "B", 0⟩], [], [⟨1, 1, "123456", 0, false⟩]⟩

def dbC7b : DB := ⟨[⟨1, "a@x.com", "h", true, 0⟩],
  [⟨1, 1, "NEQUI", "A", 10⟩, ⟨2, 1, "NU", "B", 0⟩], [], [⟨1, 1, "123456", 0, false⟩]⟩

def sessC7 : Session :=
  ⟨some 1, none, some (OpPayload.transfer_internal (some "1") (some "2") "30" "d"), some 1⟩

def dbC8 : DB := ⟨[⟨1, "a@x.com", "h", true, 0⟩],
  [⟨1, 1, "NEQUI", "A", 50⟩, ⟨2, 1, "NU", "B", 0⟩], [], []⟩

def sessC8 : Session := ⟨some 1, none, none, none⟩

def stageC8 : DB × Session × Res :=
  transfer_internal dbC8 sessC8 (some "1") (some "2") (some "30") (some "d")
    parseDec "123456" 0

def resendC8 : DB × Session × Res :=
  reenviar_otp_operacion stageC8.1 stageC8.2.1 "123456" 1

def dbC8w : DB := ⟨[⟨1, "a@x.com", "h", true, 0⟩],
  [⟨1, 1, "NEQUI", "A", 50⟩, ⟨2, 1, "NU", "B", 0⟩], [], [⟨1, 1, "111111", 0, false⟩]⟩

def sessC8w : Session :=
  ⟨some 1, none, some (OpPayload.transfer_internal (some "1") (some "2") "30" "d"), some 1⟩

def dbC9 : DB := ⟨[⟨1, "a@x.com", "h", true, 0⟩],
  [⟨1, 1, "NEQUI", "A", 10⟩, ⟨2, 1, "NU", "B", 0⟩], [], [⟨1, 1, "123456", 0, false⟩]⟩

def sessC9 : Session :=
  ⟨some 1, none, some (OpPayload.transfer_internal (some "1") (some "2") "30" "d"), some 1⟩

def dbC10 : DB := ⟨[], [], [], []⟩


/-! ### Helper lemmas -/

lemma le_foldr_max (l : List Nat) (x : Nat) (h : x ∈ l) : x ≤ l.foldr max 0 := by
  induction l with
  | nil => simp at h
  | cons a t ih =>
    rcases List.mem_cons.mp h with rfl | ht
    · exact le_max_left _ _
    · exact le_trans (ih ht) (le_max_right _ _)

lemma mem_proj_lt {α : Type} (g : α → Nat) (l : List α) (x : α) (h : x ∈ l) :
    g x < (l.map g).foldr max 0 + 1 :=
  Nat.lt_succ_of_le (le_foldr_max _ _ (List.mem_map_of_mem _ h))

lemma accId_lt_next (l : List Account) (a : Account) (h : a ∈ l) : a.id < nextAccountId l :=
  mem_proj_lt _ _ _ h

lemma otpId_lt_next (l : List OtpCode) (o : OtpCode) (h : o ∈ l) : o.id < nextOtpId l :=
  mem_proj_lt _ _ _ h

lemma userId_lt_next (l : List User) (u : User) (h : u ∈ l) : u.id < nextUserId l :=
  mem_proj_lt _ _ _ h

lemma balanceOf_cons (a : Account) (t : List Account) (j : Nat) :
    balanceOf (a :: t) j = if a.id = j then a.balance else balanceOf t j := rfl

lemma balanceOf_updateBalance_ne (l : List Account) (i j : Nat) (f : ℚ → ℚ)
    (h : j ≠ i) : balanceOf (updateBalance l i f) j = balanceOf l j := by
  induction l with
  | nil => rfl
  | cons a t ih =>
    by_cases hai : a.id = i
    · have haj : ¬ a.id = j := fun e => h (e.symm.trans hai)
      rw [updateBalance, List.map_cons, if_pos hai, balanceOf_cons]
      rw [show ({ a with balance := f a.balance } : Account).id = a.id from rfl]
      rw [if_neg haj, balanceOf_cons, if_neg haj]
      exact ih
    · rw [updateBalance, List.map_cons, if_neg hai, balanceOf_cons, balanceOf_cons]
      by_cases haj : a.id = j
      · rw [if_pos haj, if_pos haj]
      · rw [if_neg haj, if_neg haj]
        exact ih

lemma balanceOf_updateBalance_self (l : List Account) (i : Nat) (f : ℚ → ℚ)
    (h : ∃ a ∈ l, a.id = i) :
    balanceOf (updateBalance l i f) i = f (balanceOf l i) := by
  induction l with
  | nil => simp at h
  | cons a t ih =>
    by_cases hai : a.id = i
    · rw [updateBalance, List.map_cons, if_pos hai, balanceOf_cons]
      rw [show ({ a with balance := f a.balance } : Account).id = a.id from rfl]
      rw [if_pos hai, balanceOf_cons, if_pos hai]
    · have h' : ∃ b ∈ t, b.id = i := by
        obtain ⟨b, hb, hbi⟩ := h
        rcases List.mem_cons.mp hb with rfl | hbt
        · exact absurd hbi hai
        · exact ⟨b, hbt, hbi⟩
      rw [updateBalance, List.map_cons, if_neg hai, balanceOf_cons, balanceOf_cons,
        if_neg hai, if_neg hai]
      exact ih h'

lemma exists_id_updateBalance (l : List Account) (i : Nat) (f : ℚ → ℚ) (j : Nat)
    (h : ∃ a ∈ l, a.id = j) : ∃ a ∈ updateBalance l i f, a.id = j := by
  obtain ⟨a, ha, haj⟩ := h
  refine ⟨if a.id = i then { a with balance := f a.balance } else a, ?_, ?_⟩
  · exact List.mem_map_of_mem _ ha
  · by_cases hai : a.id = i
    · rw [if_pos hai]
      exact haj
    · rw [if_neg hai]
      exact haj

lemma txSum_append (txs ts : List Transaction) (i : Nat) :
    txSum (txs ++ ts) i = txSum txs i + txSum ts i := by
  simp [txSum, List.filter_append]

lemma txSum_nil_of_ne (ts : List Transaction) (i : Nat)
    (h : ∀ t ∈ ts, t.account_id ≠ i) : txSum ts i = 0 := by
  have he : ts.filter (fun t => decide (t.account_id = i)) = [] := by
    rw [List.filter_eq_nil_iff]
    intro t ht
    simpa using h t ht
  simp [txSum, he]

lemma txSum_pair (fid tid : Nat) (q : ℚ) (ds : String) (e1 e2 : Option String)
    (now : Int) (i : Nat) :
    txSum [⟨fid, now, ds, -q, "TRANSFER_OUT", some tid, e1⟩,
           ⟨tid, now, ds, q, "TRANSFER_IN", some fid, e2⟩] i
    = (if fid = i then -q else 0) + (if tid = i then q else 0) := by
  by_cases h1 : fid = i <;> by_cases h2 : tid = i <;>
    simp [txSum, List.filter, h1, h2]

lemma ledgerInvL_seed (accs : List Account) (txs : List Transaction) (uid : Nat)
    (bk nm : String) (q : ℚ) (ts : List Transaction)
    (hinv : ledgerInvL accs txs)
    (hfk : ∀ t ∈ txs, ∃ a ∈ accs, t.account_id = a.id)
    (hts : ∀ t ∈ ts, t.account_id = nextAccountId accs)
    (hsum : txSum ts (nextAccountId accs) = q) :
    ledgerInvL (accs ++ [⟨nextAccountId accs, uid, bk, nm, q⟩]) (txs ++ ts) := by
  intro a ha
  rw [txSum_append]
  rcases List.mem_append.mp ha with ha | ha
  · have h1 := hinv a ha
    have h2 : txSum ts a.id = 0 := by
      apply txSum_nil_of_ne
      intro t ht
      rw [hts t ht]
      exact Nat.ne_of_gt (accId_lt_next _ _ ha)
    rw [h2, ← h1]
    ring
  · have he : a = ⟨nextAccountId accs, uid, bk, nm, q⟩ := by simpa using ha
    subst he
    have h0 : txSum txs (nextAccountId accs) = 0 := by
      apply txSum_nil_of_ne
      intro t ht
      obtain ⟨b, hb, hbe⟩ := hfk t ht
      rw [hbe]
      exact Nat.ne_of_lt (accId_lt_next _ _ hb)
    show q = txSum txs (nextAccountId accs) + txSum ts (nextAccountId accs)
    rw [h0, hsum]
    ring

lemma updIf_id (a : Account) (c : Prop) [Decidable c] (x : ℚ) :
    (if c then { a with balance := x } else a).id = a.id := by
  split <;> rfl

lemma updIf_balance (a : Account) (c : Prop) [Decidable c] (x : ℚ) :
    (if c then { a with balance := x } else a).balance
      = if c then x else a.balance := by
  split <;> rfl

lemma mem_applyTransfer_accounts (accs : List Account) (fid tid : Nat) (q : ℚ)
    (a2 : Account)
    (h : a2 ∈ updateBalance (updateBalance accs fid (fun b => b - q)) tid
           (fun b => b + q)) :
    ∃ a ∈ accs, a2.id = a.id ∧
      a2.balance = a.balance - (if a.id = fid then q else 0)
        + (if a.id = tid then q else 0) := by
  rw [updateBalance, updateBalance, List.map_map] at h
  rcases List.mem_map.mp h with ⟨a, ha, rfl⟩
  refine ⟨a, ha, ?_, ?_⟩
  · simp only [Function.comp_apply]
    rw [updIf_id, updIf_id]
  · simp only [Function.comp_apply]
    rw [updIf_balance, updIf_id, updIf_balance]
    by_cases hf : a.id = fid <;> by_cases ht : a.id = tid
    · simp only [if_pos hf, if_pos ht]
    · simp only [if_pos hf, if_neg ht] <;> ring
    · simp only [if_neg hf, if_pos ht] <;> ring
    · simp only [if_neg hf, if_neg ht] <;> ring

lemma ledgerInv_applyTransfer (db : DB) (fA tA : Account) (q : ℚ) (ds : String)
    (e1 e2 : Option String) (now : Int) (hinv : LedgerInv db) :
    LedgerInv (applyTransfer db fA tA q ds e1 e2 now) := by
  intro a2 ha2
  obtain ⟨a, ha, hid, hbal⟩ :=
    mem_applyTransfer_accounts db.accounts fA.id tA.id q a2 ha2
  have h0 := hinv a ha
  show a2.balance = txSum (db.transactions ++
    [⟨fA.id, now, ds, -q, "TRANSFER_OUT", some tA.id, e1⟩,
     ⟨tA.id, now, ds, q, "TRANSFER_IN", some fA.id, e2⟩]) a2.id
  rw [txSum_append, txSum_pair, hid, hbal, h0]
  by_cases hf : a.id = fA.id <;> by_cases ht : a.id = tA.id
  · rw [if_pos hf, if_pos ht, if_pos hf.symm, if_pos ht.symm]
    ring
  · rw [if_pos hf, if_neg ht, if_pos hf.symm, if_neg (fun e => ht e.symm)]
    ring
  · rw [if_neg hf, if_pos ht, if_neg (fun e => hf e.symm), if_pos ht.symm]
    ring
  · rw [if_neg hf, if_neg ht, if_neg (fun e => hf e.symm), if_neg (fun e => ht e.symm)]
    ring

lemma balance_pair_applyTransfer (db : DB) (fA tA : Account) (q : ℚ) (ds : String)
    (e1 e2 : Option String) (now : Int)
    (hf : ∃ a ∈ db.accounts, a.id = fA.id) (ht : ∃ a ∈ db.accounts, a.id = tA.id) :
    balanceOf (applyTransfer db fA tA q ds e1 e2 now).accounts fA.id
      + balanceOf (applyTransfer db fA tA q ds e1 e2 now).accounts tA.id
    = balanceOf db.accounts fA.id + balanceOf db.accounts tA.id := by
  show balanceOf (updateBalance (updateBalance db.accounts fA.id (fun b => b - q))
      tA.id (fun b => b + q)) fA.id
    + balanceOf (updateBalance (updateBalance db.accounts fA.id (fun b => b - q))
      tA.id (fun b => b + q)) tA.id = _
  by_cases he : fA.id = tA.id
  · rw [he] at *
    rw [balanceOf_updateBalance_self _ _ _ (exists_id_updateBalance _ _ _ _ ht),
      balanceOf_updateBalance_self _ _ _ ht]
    ring
  · rw [balanceOf_updateBalance_ne _ _ _ _ he,
      balanceOf_updateBalance_self _ _ _ hf,
      balanceOf_updateBalance_self _ _ _ (exists_id_updateBalance _ _ _ _ ht),
      balanceOf_updateBalance_ne _ _ _ _ (fun e => he e.symm)]
    ring

lemma mostRecent_mem (l : List OtpCode) (o : OtpCode) (h : mostRecent l = some o) :
    o ∈ l := by
  induction l generalizing o with
  | nil => cases h
  | cons a t ih =>
    rw [mostRecent] at h
    split at h
    · cases h
      exact List.mem_cons_self _ _
    next b heq =>
      split at h
      · cases h
        exact List.mem_cons_of_mem _ (ih _ heq)
      · cases h
        exact List.mem_cons_self _ _

lemma parseAmount_pos (parse : String → Option ℚ) (raw : String) (q : ℚ)
    (h : parseAmount parse raw = some q) : 0 < q := by
  unfold parseAmount at h
  split at h
  · cases h
  next r heq =>
    split at h
    next hle => cases h
    next hle =>
      cases h
      exact lt_of_not_le hle

lemma find?_append_none {α : Type} (l1 l2 : List α) (p : α → Bool)
    (h : l1.find? p = none) : (l1 ++ l2).find? p = l2.find? p := by
  rw [List.find?_append, h, Option.none_or]

lemma find?_otps_lt_none (l : List OtpCode) (i : Nat) (uid : Nat)
    (hlt : ∀ o ∈ l, o.id < i) :
    l.find? (fun o => decide (o.id = i ∧ o.user_id = uid)) = none := by
  rw [List.find?_eq_none]
  intro o ho
  simp only [decide_eq_true_eq]
  intro hc
  exact absurd hc.1 (Nat.ne_of_lt (hlt o ho))

/-- `_execute_transfer_internal`: the exact shape of a successful run. -/
lemma internal_ok_shape (db : DB) (user : User) (fi ti : Option String)
    (am ds : String) (parse : String → Option ℚ) (now : Int) (dbI : DB)
    (h : _execute_transfer_internal db user fi ti am ds parse now = (dbI, Res.internalOk)) :
    ∃ q from_acc to_acc,
      parseAmount parse am = some q ∧ 0 < q ∧
      findAccountBy db.accounts fi user.id = some from_acc ∧
      findAccountBy db.accounts ti user.id = some to_acc ∧
      ¬ from_acc.balance < q ∧
      dbI = applyTransfer db from_acc to_acc q ds none none now := by
  unfold _execute_transfer_internal at h
  split at h
  · simp at h
  split at h
  · simp at h
  next q hq =>
    split at h
    next from_acc to_acc hfrom hto =>
      split at h
      · simp at h
      next hlt =>
        rw [Prod.mk.injEq] at h
        exact ⟨q, from_acc, to_acc, hq, parseAmount_pos _ _ _ hq, hfrom, hto, hlt,
          h.1.symm⟩
    next hother =>
      simp at h

/-- `_execute_transfer_external`: the exact shape of a successful run. -/
lemma external_ok_shape (db : DB) (user : User) (fi : Option String)
    (re am ds : String) (parse : String → Option ℚ) (now : Int) (dbE : DB)
    (h : _execute_transfer_external db user fi re am ds parse now = (dbE, Res.externalOk)) :
    ∃ q from_acc recipient to_acc,
      parseAmount parse am = some q ∧ 0 < q ∧
      findAccountBy db.accounts fi user.id = some from_acc ∧
      ¬ from_acc.balance < q ∧
      db.users.find? (fun u => decide (u.email = re)) = some recipient ∧
      db.accounts.find? (fun a => decide (a.user_id = recipient.id)) = some to_acc ∧
      dbE = applyTransfer db from_acc to_acc q ds (some recipient.email)
              (some user.email) now := by
  unfold _execute_transfer_external at h
  split at h
  · simp at h
  split at h
  · simp at h
  next q hq =>
    split at h
    · simp at h
    next from_acc hfrom =>
      split at h
      · simp at h
      next hlt =>
        split at h
        · simp at h
        next recipient hrec =>
          split at h
          · simp at h
          next to_acc hto =>
            rw [Prod.mk.injEq] at h
            exact ⟨q, from_acc, recipient, to_acc, hq, parseAmount_pos _ _ _ hq,
              hfrom, hlt, hrec, hto, h.1.symm⟩

lemma create_result_cases (db : DB) (user : User) (bt nm ib : String)
    (parse : String → Option ℚ) (now : Int) :
    (_execute_create_account db user bt nm ib parse now).1 = db ∨
    (_execute_create_account db user bt nm ib parse now).2 = Res.createOk := by
  unfold _execute_create_account
  repeat' split
  all_goals first | (left ; rfl) | (right ; rfl)

lemma internal_result_cases (db : DB) (user : User) (fi ti : Option String)
    (am ds : String) (parse : String → Option ℚ) (now : Int) :
    (_execute_transfer_internal db user fi ti am ds parse now).1 = db ∨
    (_execute_transfer_internal db user fi ti am ds parse now).2 = Res.internalOk := by
  unfold _execute_transfer_internal
  repeat' split
  all_goals first | (left ; rfl) | (right ; rfl)

lemma external_result_cases (db : DB) (user : User) (fi : Option String)
    (re am ds : String) (parse : String → Option ℚ) (now : Int) :
    (_execute_transfer_external db user fi re am ds parse now).1 = db ∨
    (_execute_transfer_external db user fi re am ds parse now).2 = Res.externalOk := by
  unfold _execute_transfer_external
  repeat' split
  all_goals first | (left ; rfl) | (right ; rfl)

lemma create_otps_unchanged (db : DB) (user : User) (bt nm ib : String)
    (parse : String → Option ℚ) (now : Int) :
    (_execute_create_account db user bt nm ib parse now).1.otps = db.otps := by
  unfold _execute_create_account
  repeat' split
  all_goals rfl

lemma internal_otps_unchanged (db : DB) (user : User) (fi ti : Option String)
    (am ds : String) (parse : String → Option ℚ) (now : Int) :
    (_execute_transfer_internal db user fi ti am ds parse now).1.otps = db.otps := by
  unfold _execute_transfer_internal
  repeat' split
  all_goals rfl

lemma external_otps_unchanged (db : DB) (user : User) (fi : Option String)
    (re am ds : String) (parse : String → Option ℚ) (now : Int) :
    (_execute_transfer_external db user fi re am ds parse now).1.otps = db.otps := by
  unfold _execute_transfer_external
  repeat' split
  all_goals rfl

lemma dispatchOp_otps_unchanged (db1 : DB) (user : User) (op : OpPayload)
    (parse : String → Option ℚ) (now : Int) :
    (dispatchOp db1 user op parse now).1.otps = db1.otps := by
  cases op with
  | create_account bt nm ib => exact create_otps_unchanged _ _ _ _ _ _ _
  | transfer_internal fi ti am ds => exact internal_otps_unchanged _ _ _ _ _ _ _ _
  | transfer_external fi re am ds => exact external_otps_unchanged _ _ _ _ _ _ _ _

lemma dispatchOp_err_unchanged (db1 : DB) (user : User) (op : OpPayload)
    (parse : String → Option ℚ) (now : Int)
    (h1 : (dispatchOp db1 user op parse now).2 ≠ Res.createOk)
    (h2 : (dispatchOp db1 user op parse now).2 ≠ Res.internalOk)
    (h3 : (dispatchOp db1 user op parse now).2 ≠ Res.externalOk) :
    (dispatchOp db1 user op parse now).1 = db1 := by
  cases op with
  | create_account bt nm ib =>
    rcases create_result_cases db1 user bt (pyStrip nm) ib parse now with h | h
    · exact h
    · exact absurd h h1
  | transfer_internal fi ti am ds =>
    rcases internal_result_cases db1 user fi ti am
        (strOr (pyStrip ds) "Transferencia interna") parse now with h | h
    · exact h
    · exact absurd h h2
  | transfer_external fi re am ds =>
    rcases external_result_cases db1 user fi (pyStrip (pyLower re)) am
        (strOr (pyStrip ds) "Transferencia a otro usuario") parse now with h | h
    · exact h
    · exact absurd h h3

/-- Under a passing OTP validation, `confirmar_operacion` marks the bound
challenge used, clears the descriptor and dispatches the stored payload. -/
lemma confirm_guard (db : DB) (sess : Session) (uid otp_id : Nat) (op : OpPayload)
    (user : User) (otp : OtpCode) (code_form : Option String)
    (parse : String → Option ℚ) (now maxAge : Int)
    (hs1 : sess.user_id = some uid)
    (hs2 : sess.pending_operation = some op)
    (hs3 : sess.pending_operation_otp_id = some otp_id)
    (hu : db.users.find? (fun u => decide (u.id = uid)) = some user)
    (hcode : ¬ pyStrip (code_form.getD "") = "")
    (ho : db.otps.find? (fun o => decide (o.id = otp_id ∧ o.user_id = user.id)) = some otp)
    (hused : otp.used = false)
    (hmatch : otp.code = pyStrip (code_form.getD ""))
    (hfresh : ¬ otp.created_at < now - maxAge) :
    confirmar_operacion db sess code_form parse now maxAge =
      ((dispatchOp { db with otps := markUsed db.otps otp.id } user op parse now).1,
       _clear_pending_operation sess,
       (dispatchOp { db with otps := markUsed db.otps otp.id } user op parse now).2) := by
  unfold confirmar_operacion
  rw [hs1, hs2, hs3]
  simp only [hu, ho, hcode, if_neg, hused, hmatch, hfresh]
  simp [hmatch]

lemma findAccountBy_mem (accs : List Account) (sid : Option String) (uid : Nat)
    (a : Account) (h : findAccountBy accs sid uid = some a) : a ∈ accs := by
  unfold findAccountBy at h
  rcases Option.bind_eq_some.mp h with ⟨i, hi, hfind⟩
  exact List.mem_of_find?_eq_some hfind

lemma register_result_cases (db : DB) (sess : Session) (ef pf : Option String)
    (hashPw : String → String) (now : Int) :
    (register db sess ef pf hashPw now).1 = db ∨
    (register db sess ef pf hashPw now).2 = Res.registered := by
  unfold register
  repeat' split
  all_goals first | (left ; rfl) | (right ; rfl)

lemma register_ok_shape (db : DB) (sess : Session) (ef pf : Option String)
    (hashPw : String → String) (now : Int) (db' : DB)
    (h : register db sess ef pf hashPw now = (db', Res.registered)) :
    db' = { db with
      users := db.users ++ [⟨nextUserId db.users, pyStrip (pyLower (ef.getD "")),
        hashPw (pf.getD ""), false, now⟩],
      accounts := db.accounts ++ [⟨nextAccountId db.accounts, nextUserId db.users,
        "OTRO", "Cuenta Ahorros Principal", 1500000⟩],
      transactions := db.transactions ++ [⟨nextAccountId db.accounts, now,
        "Depósito inicial", 1500000, "ingreso", none, none⟩] } := by
  unfold register at h
  split at h
  · simp at h
  split at h
  · simp at h
  split at h
  · simp at h
  · rw [Prod.mk.injEq] at h
    exact h.1.symm

lemma create_ok_shape (db : DB) (user : User) (bt nm ib : String)
    (parse : String → Option ℚ) (now : Int) (db' : DB)
    (h : _execute_create_account db user bt nm ib parse now = (db', Res.createOk)) :
    ∃ q, parse (strOr (pyStrip (strOr ib "0")) "0") = some q ∧
      db' = { db with
        accounts := db.accounts ++
          [⟨nextAccountId db.accounts, user.id, bt, nm, q⟩],
        transactions := db.transactions ++
          (if q ≠ 0 then
            [⟨nextAccountId db.accounts, now, "Saldo inicial", q, "INGRESO", none, none⟩]
           else []) } := by
  unfold _execute_create_account at h
  split at h
  · simp at h
  split at h
  · simp at h
  split at h
  · simp at h
  next q hq =>
    rw [Prod.mk.injEq] at h
    exact ⟨q, hq, h.1.symm⟩


/-! ### Claim theorems -/
/-- C1: every successful transfer (internal or external) appends exactly two
Transaction rows in its single commit — `-amount` on the source account and
`+amount` on the destination account, summing to zero — and the sum of the
source and destination balances is unchanged. -/
theorem transfers_create_balanced_pair
    (db : DB) (user : User) (fi ti fi2 : Option String) (re am ds am2 ds2 : String)
    (parse : String → Option ℚ) (now : Int) :
    (∀ dbI, _execute_transfer_internal db user fi ti am ds parse now
        = (dbI, Res.internalOk) →
      ∃ fid tid q, 0 < q ∧ transferPairOk db dbI fid tid q) ∧
    (∀ dbE, _execute_transfer_external db user fi2 re am2 ds2 parse now
        = (dbE, Res.externalOk) →
      ∃ fid tid q, 0 < q ∧ transferPairOk db dbE fid tid q) := by
  constructor
  · intro dbI hI
    obtain ⟨q, fa, ta, hq, hqpos, hf, ht, hlt, rfl⟩ :=
      internal_ok_shape _ _ _ _ _ _ _ _ _ hI
    refine ⟨fa.id, ta.id, q, hqpos, ⟨_, _, rfl, rfl, rfl, rfl, rfl, by ring⟩, ?_⟩
    exact balance_pair_applyTransfer _ _ _ _ _ _ _ _
      ⟨fa, findAccountBy_mem _ _ _ _ hf, rfl⟩ ⟨ta, findAccountBy_mem _ _ _ _ ht, rfl⟩
  · intro dbE hE
    obtain ⟨q, fa, recp, ta, hq, hqpos, hf, hlt, hrec, hto, rfl⟩ :=
      external_ok_shape _ _ _ _ _ _ _ _ _ hE
    refine ⟨fa.id, ta.id, q, hqpos, ⟨_, _, rfl, rfl, rfl, rfl, rfl, by ring⟩, ?_⟩
    exact balance_pair_applyTransfer _ _ _ _ _ _ _ _
      ⟨fa, findAccountBy_mem _ _ _ _ hf, rfl⟩
      ⟨ta, List.mem_of_find?_eq_some hto, rfl⟩

/-- Witness for C1 at a concrete two-user database: both transfer kinds
succeed and yield the balanced pair. -/
theorem transfers_create_balanced_pair_witness :
    (∃ fid tid q, 0 < q ∧ transferPairOk dbC1
      (_execute_transfer_internal dbC1 userC1 (some "1") (some "2") "30" "d" parseDec 0).1
      fid tid q) ∧
    (∃ fid tid q, 0 < q ∧ transferPairOk dbC1
      (_execute_transfer_external dbC1 userC1 (some "1") "b@x.com" "10" "d" parseDec 0).1
      fid tid q) :=
  ⟨(transfers_create_balanced_pair dbC1 userC1 (some "1") (some "2") (some "1")
      "b@x.com" "30" "d" "10" "d" parseDec 0).1 _ (by with_unfolding_all rfl),
   (transfers_create_balanced_pair dbC1 userC1 (some "1") (some "2") (some "1")
      "b@x.com" "30" "d" "10" "d" parseDec 0).2 _ (by with_unfolding_all rfl)⟩

/-- C2: each of the four balance-mutating operations (registration seed,
open-account execution, internal transfer execution, external transfer
execution) preserves the ledger invariant "every account's balance equals
the sum of its transaction amounts" (given referential integrity of the
transaction table). -/
theorem ledger_invariant_preserved
    (db : DB) (sess : Session) (user : User)
    (email_form password_form : Option String) (hashPw : String → String)
    (bt nm ib : String) (fi ti fi2 : Option String) (am ds re am2 ds2 : String)
    (parse : String → Option ℚ) (now : Int)
    (hinv : LedgerInv db) (hfk : TxFK db) :
    LedgerInv (register db sess email_form password_form hashPw now).1 ∧
    LedgerInv (_execute_create_account db user bt nm ib parse now).1 ∧
    LedgerInv (_execute_transfer_internal db user fi ti am ds parse now).1 ∧
    LedgerInv (_execute_transfer_external db user fi2 re am2 ds2 parse now).1 := by
  refine ⟨?_, ?_, ?_, ?_⟩
  · rcases register_result_cases db sess email_form password_form hashPw now with hc | hc
    · rw [hc]
      exact hinv
    · rcases hreg : register db sess email_form password_form hashPw now with ⟨db', r⟩
      rw [hreg] at hc
      simp only at hc
      subst hc
      have hsh := register_ok_shape _ _ _ _ _ _ _ hreg
      show LedgerInv db'
      rw [hsh]
      show ledgerInvL (db.accounts ++ _) (db.transactions ++ _)
      apply ledgerInvL_seed _ _ _ _ _ _ _ hinv hfk
      · intro t ht
        rcases List.mem_singleton.mp ht with rfl
        rfl
      · simp [txSum, List.filter_cons]
  · rcases create_result_cases db user bt nm ib parse now with hc | hc
    · rw [hc]
      exact hinv
    · rcases hcr : _execute_create_account db user bt nm ib parse now with ⟨db', r⟩
      rw [hcr] at hc
      simp only at hc
      subst hc
      obtain ⟨q, hq, hsh⟩ := create_ok_shape _ _ _ _ _ _ _ _ hcr
      show LedgerInv db'
      rw [hsh]
      show ledgerInvL (db.accounts ++ _) (db.transactions ++ _)
      apply ledgerInvL_seed _ _ _ _ _ _ _ hinv hfk
      · intro t ht
        by_cases hq0 : q = 0
        · rw [if_neg (by simpa using hq0)] at ht
          cases ht
        · rw [if_pos hq0] at ht
          rcases List.mem_singleton.mp ht with rfl
          rfl
      · by_cases hq0 : q = 0
        · rw [if_neg (by simpa using hq0), hq0]
          rfl
        · rw [if_pos hq0]
          simp [txSum, List.filter_cons]
  · rcases internal_result_cases db user fi ti am ds parse now with hc | hc
    · rw [hc]
      exact hinv
    · rcases hin : _execute_transfer_internal db user fi ti am ds parse now with ⟨db', r⟩
      rw [hin] at hc
      simp only at hc
      subst hc
      obtain ⟨q, fa, ta, hq, hqpos, hfa, hta, hlt, rfl⟩ :=
        internal_ok_shape _ _ _ _ _ _ _ _ _ hin
      exact ledgerInv_applyTransfer _ _ _ _ _ _ _ _ hinv
  · rcases external_result_cases db user fi2 re am2 ds2 parse now with hc | hc
    · rw [hc]
      exact hinv
    · rcases hex : _execute_transfer_external db user fi2 re am2 ds2 parse now with ⟨db', r⟩
      rw [hex] at hc
      simp only at hc
      subst hc
      obtain ⟨q, fa, recp, ta, hq, hqpos, hfa, hlt, hrec, hto, rfl⟩ :=
        external_ok_shape _ _ _ _ _ _ _ _ _ hex
      exact ledgerInv_applyTransfer _ _ _ _ _ _ _ _ hinv

/-- Witness for C2 at a concrete consistent database. -/
theorem ledger_invariant_preserved_witness :
    LedgerInv (register dbC2 ⟨none, none, none, none⟩ (some "c@x.com") (some "pw")
      (fun s => s) 1).1 ∧
    LedgerInv (_execute_create_account dbC2 ⟨1, "a@x.com", "h", true, 0⟩ "NEQUI" "D"
      "7" parseDec 1).1 ∧
    LedgerInv (_execute_transfer_internal dbC2 ⟨1, "a@x.com", "h", true, 0⟩ (some "1")
      (some "2") "30" "d" parseDec 1).1 ∧
    LedgerInv (_execute_transfer_external dbC2 ⟨1, "a@x.com", "h", true, 0⟩ (some "1")
      "a@x.com" "10" "d" parseDec 1).1 :=
  ledger_invariant_preserved dbC2 ⟨none, none, none, none⟩ ⟨1, "a@x.com", "h", true, 0⟩
    (some "c@x.com") (some "pw") (fun s => s) "NEQUI" "D" "7" (some "1") (some "2")
    (some "1") "30" "d" "a@x.com" "10" "d" parseDec 1
    (by with_unfolding_all decide) (by decide)

/-- C3 counterexample: the correct code for the bound challenge submitted
after `max_age` yields the Expired failure but the Pending Operation
Descriptor is NOT cleared (session and database are fully unchanged), so
the claim "clears the Pending Operation Descriptor … cannot be confirmed
again without re-staging" fails on the code. -/
theorem expired_otp_clears_descriptor_cex :
    (confirmar_operacion dbC3 sessC3 (some "123456") parseDec 100 5).2.2
      = Res.otpExpired ∧
    (confirmar_operacion dbC3 sessC3 (some "123456") parseDec 100 5).2.1 = sessC3 ∧
    sessC3.pending_operation
      = some (OpPayload.transfer_internal (some "1") (some "2") "30" "d") ∧
    (confirmar_operacion dbC3 sessC3 (some "123456") parseDec 100 5).1 = dbC3 := by
  decide

/-- C3 (amended): when the correct code for the bound challenge is submitted
after `max_age`, the orchestrator returns the Expired failure and leaves the
state fully unchanged: the Pending Operation Descriptor is retained (it is
cleared on AlreadyUsed/not-found, not on Expired) and the challenge stays
unused, so the same staged operation can still be confirmed after a resend
issues a fresh code — no re-staging is required. -/
theorem expired_otp_retains_descriptor
    (db : DB) (sess : Session) (uid otp_id : Nat) (op : OpPayload)
    (user : User) (otp : OtpCode) (code_form : Option String)
    (parse : String → Option ℚ) (now maxAge : Int)
    (hs1 : sess.user_id = some uid)
    (hs2 : sess.pending_operation = some op)
    (hs3 : sess.pending_operation_otp_id = some otp_id)
    (hu : db.users.find? (fun u => decide (u.id = uid)) = some user)
    (hcode : ¬ pyStrip (code_form.getD "") = "")
    (ho : db.otps.find? (fun o => decide (o.id = otp_id ∧ o.user_id = user.id)) = some otp)
    (hused : otp.used = false)
    (hmatch : otp.code = pyStrip (code_form.getD ""))
    (hexp : otp.created_at < now - maxAge) :
    confirmar_operacion db sess code_form parse now maxAge
      = (db, sess, Res.otpExpired) := by
  unfold confirmar_operacion
  rw [hs1, hs2, hs3]
  simp only [hu, ho, hcode, if_neg, hused, hmatch, hexp]
  simp [hmatch]

/-- Witness for the amended C3 at the concrete expired scenario. -/
theorem expired_otp_retains_descriptor_witness :
    confirmar_operacion dbC3 sessC3 (some "123456") parseDec 100 5
      = (dbC3, sessC3, Res.otpExpired) :=
  expired_otp_retains_descriptor dbC3 sessC3 1 1
    (OpPayload.transfer_internal (some "1") (some "2") "30" "d")
    ⟨1, "a@x.com", "h", true, 0⟩ ⟨1, 1, "123456", 0, false⟩ (some "123456")
    parseDec 100 5 rfl rfl rfl (by decide) (by decide) (by decide) rfl
    (by decide) (by decide)

/-- C4 counterexample: with two outstanding unused challenges, login-time
confirmation accepts the OLDER challenge's code ("111111") even though it
differs from the code of the challenge with the latest creation timestamp
among the user's unused challenges ("222222") — the query filters by the
submitted code value first. -/
theorem login_otp_accepts_older_code_cex :
    (verify_otp dbC4 sessC4 (some "111111") 4 5).2.2 = Res.mfaOk ∧
    (latestUnusedChallengeSpec dbC4 1).map (fun o => o.code) = some "222222" ∧
    "111111" ≠ "222222" := by
  decide

/-- C4 (amended): a login-time OTP submission succeeds only if it equals the
code of SOME unused challenge of that user that is also unexpired — the
implementation validates against the most recently created unused challenge
bearing the submitted code, not against the most recently created unused
challenge overall. -/
theorem login_otp_requires_matching_unused_code
    (db db' : DB) (sess sess' : Session) (uid : Nat) (user : User)
    (code_form : Option String) (now maxAge : Int)
    (hs : sess.pending_otp_user_id = some uid)
    (hu : db.users.find? (fun u => decide (u.id = uid)) = some user)
    (hok : verify_otp db sess code_form now maxAge = (db', sess', Res.mfaOk)) :
    ∃ otp ∈ db.otps, otp.user_id = user.id ∧ otp.used = false ∧
      otp.code = pyStrip (code_form.getD "") ∧ ¬ otp.created_at < now - maxAge := by
  unfold verify_otp at hok
  rw [hs] at hok
  simp only [hu] at hok
  split at hok
  · simp at hok
  split at hok
  · simp at hok
  next otp hm =>
    split at hok
    next hex => simp at hok
    next hex =>
      have hmem := mostRecent_mem _ _ hm
      obtain ⟨hin, hp⟩ := List.mem_filter.mp hmem
      rw [decide_eq_true_eq] at hp
      exact ⟨otp, hin, hp.1, hp.2.2, hp.2.1, hex⟩

/-- Witness for the amended C4. -/
theorem login_otp_requires_matching_unused_code_witness :
    ∃ otp ∈ dbC4w.otps, otp.user_id = 1 ∧ otp.used = false ∧
      otp.code = pyStrip ((some "111111" : Option String).getD "") ∧
      ¬ otp.created_at < 1 - 5 :=
  login_otp_requires_matching_unused_code dbC4w
    (verify_otp dbC4w ⟨none, some 1, none, none⟩ (some "111111") 1 5).1
    ⟨none, some 1, none, none⟩
    (verify_otp dbC4w ⟨none, some 1, none, none⟩ (some "111111") 1 5).2.1
    1 ⟨1, "a@x.com", "h", true, 0⟩ (some "111111") 1 5 rfl rfl (by decide)

/-- C5 counterexample: an open-account request whose initial-balance string
parses to the negative number -100 is NOT rejected at staging: it stages
successfully, creating an OTP challenge and a Pending Operation Descriptor. -/
theorem negative_initial_balance_staged_cex :
    parseDec "-100" = some (-100) ∧ ((-100 : ℚ) < 0) ∧
    (create_account dbC5 sessC5 (some "NEQUI") (some "Daily") (some "-100") parseDec
      "654321" 0).2.2 = Res.otpSent ∧
    (create_account dbC5 sessC5 (some "NEQUI") (some "Daily") (some "-100") parseDec
      "654321" 0).1.otps = [⟨1, 1, "654321", 0, false⟩] ∧
    (create_account dbC5 sessC5 (some "NEQUI") (some "Daily") (some "-100") parseDec
      "654321" 0).2.1.pending_operation
      = some (OpPayload.create_account "NEQUI" "Daily" "-100") ∧
    (create_account dbC5 sessC5 (some "NEQUI") (some "Daily") (some "-100") parseDec
      "654321" 0).2.1.pending_operation_otp_id = some 1 := by
  with_unfolding_all decide

/-- C5 (amended): open-account staging rejects, with no state change at all,
exactly the initial-balance strings the decimal parser refuses; any string
the parser accepts — negative values included — passes staging: an OTP
challenge and a pending descriptor are created (and no Account or
Transaction is touched at staging time). -/
theorem create_account_staging_parse_behaviour
    (db : DB) (sess : Session) (uid : Nat) (user : User)
    (btf nmf ibf : Option String) (parse : String → Option ℚ) (otpCode : String)
    (now : Int)
    (hs : sess.user_id = some uid)
    (hu : db.users.find? (fun u => decide (u.id = uid)) = some user)
    (hbt : btf.getD "OTRO" ∈ BANK_TYPES)
    (hnm : ¬ pyStrip (nmf.getD "") = "") :
    (∀ q, parse (strOr (pyStrip (ibf.getD "0")) "0") = some q →
      create_account db sess btf nmf ibf parse otpCode now =
        ({ db with otps := db.otps ++ [⟨nextOtpId db.otps, user.id, otpCode, now, false⟩] },
         { sess with
           pending_operation := some (OpPayload.create_account (btf.getD "OTRO")
             (pyStrip (nmf.getD "")) (strOr (pyStrip (ibf.getD "0")) "0")),
           pending_operation_otp_id := some (nextOtpId db.otps) },
         Res.otpSent)) ∧
    (parse (strOr (pyStrip (ibf.getD "0")) "0") = none →
      create_account db sess btf nmf ibf parse otpCode now
        = (db, sess, Res.errInvalidInitialBalance)) := by
  constructor
  · intro q hq
    unfold create_account
    rw [hs]
    simp only [hu, hbt, hnm, hq, _start_operation_otp]
    simp [hbt, hs]
  · intro hq
    unfold create_account
    rw [hs]
    simp only [hu, hbt, hnm, hq]
    simp [hbt, hs]

/-- Witness for the amended C5 at the concrete negative-balance request. -/
theorem create_account_staging_parse_behaviour_witness :
    (∀ q, parseDec (strOr (pyStrip ((some "-100" : Option String).getD "0")) "0") = some q →
      create_account dbC5 sessC5 (some "NEQUI") (some "Daily") (some "-100") parseDec
          "654321" 0 =
        ({ dbC5 with otps := dbC5.otps ++ [⟨nextOtpId dbC5.otps, 1, "654321", 0, false⟩] },
         { sessC5 with
           pending_operation := some (OpPayload.create_account
             ((some "NEQUI" : Option String).getD "OTRO")
             (pyStrip ((some "Daily" : Option String).getD ""))
             (strOr (pyStrip ((some "-100" : Option String).getD "0")) "0")),
           pending_operation_otp_id := some (nextOtpId dbC5.otps) },
         Res.otpSent)) ∧
    (parseDec (strOr (pyStrip ((some "-100" : Option String).getD "0")) "0") = none →
      create_account dbC5 sessC5 (some "NEQUI") (some "Daily") (some "-100") parseDec
        "654321" 0 = (dbC5, sessC5, Res.errInvalidInitialBalance)) :=
  create_account_staging_parse_behaviour dbC5 sessC5 1 ⟨1, "a@x.com", "h", true, 0⟩
    (some "NEQUI") (some "Daily") (some "-100") parseDec "654321" 0
    rfl rfl (by decide) (by decide)

/-- C6 counterexample: a confirmation with a valid, unexpired, unused code
whose business re-validation fails (insufficient funds) ends in an
observable state where the challenge is marked used while none of the
operation's ledger mutations were applied — the mark-used commit is not
atomic with the ledger commit. -/
theorem otp_used_without_ledger_effects_cex :
    (confirmar_operacion dbC6 sessC6 (some "123456") parseDec 1 5).2.2
      = Res.errInsufficientFunds ∧
    (confirmar_operacion dbC6 sessC6 (some "123456") parseDec 1 5).1.otps
      = [⟨1, 1, "123456", 0, true⟩] ∧
    (confirmar_operacion dbC6 sessC6 (some "123456") parseDec 1 5).1.accounts
      = dbC6.accounts ∧
    (confirmar_operacion dbC6 sessC6 (some "123456") parseDec 1 5).1.transactions
      = dbC6.transactions := by
  with_unfolding_all decide

/-- C6 (amended): on successful OTP validation the challenge's used flag is
set in its own, earlier commit, separate from the ledger mutations; whenever
the subsequent business execution fails, the final state has the challenge
consumed while no balance or transaction mutation was applied. -/
theorem otp_marked_used_in_separate_commit
    (db : DB) (sess : Session) (uid otp_id : Nat) (op : OpPayload)
    (user : User) (otp : OtpCode) (code_form : Option String)
    (parse : String → Option ℚ) (now maxAge : Int)
    (hs1 : sess.user_id = some uid)
    (hs2 : sess.pending_operation = some op)
    (hs3 : sess.pending_operation_otp_id = some otp_id)
    (hu : db.users.find? (fun u => decide (u.id = uid)) = some user)
    (hcode : ¬ pyStrip (code_form.getD "") = "")
    (ho : db.otps.find? (fun o => decide (o.id = otp_id ∧ o.user_id = user.id)) = some otp)
    (hused : otp.used = false)
    (hmatch : otp.code = pyStrip (code_form.getD ""))
    (hfresh : ¬ otp.created_at < now - maxAge) :
    (confirmar_operacion db sess code_form parse now maxAge).1.otps
      = markUsed db.otps otp.id ∧
    ((confirmar_operacion db sess code_form parse now maxAge).2.2 ≠ Res.createOk →
     (confirmar_operacion db sess code_form parse now maxAge).2.2 ≠ Res.internalOk →
     (confirmar_operacion db sess code_form parse now maxAge).2.2 ≠ Res.externalOk →
     (confirmar_operacion db sess code_form parse now maxAge).1.accounts = db.accounts ∧
     (confirmar_operacion db sess code_form parse now maxAge).1.transactions
       = db.transactions) := by
  have hg := confirm_guard db sess uid otp_id op user otp code_form parse now maxAge
    hs1 hs2 hs3 hu hcode ho hused hmatch hfresh
  rw [hg]
  constructor
  · show (dispatchOp { db with otps := markUsed db.otps otp.id } user op parse now).1.otps
      = markUsed db.otps otp.id
    rw [dispatchOp_otps_unchanged]
  · intro h1 h2 h3
    have hun := dispatchOp_err_unchanged { db with otps := markUsed db.otps otp.id }
      user op parse now h1 h2 h3
    show (dispatchOp { db with otps := markUsed db.otps otp.id } user op parse now).1.accounts
        = db.accounts ∧
      (dispatchOp { db with otps := markUsed db.otps otp.id } user op parse now).1.transactions
        = db.transactions
    rw [hun]
    exact ⟨rfl, rfl⟩

/-- Witness for the amended C6 at the insufficient-funds scenario. -/
theorem otp_marked_used_in_separate_commit_witness :
    (confirmar_operacion dbC6 sessC6 (some "123456") parseDec 1 5).1.otps
      = markUsed dbC6.otps 1 ∧
    ((confirmar_operacion dbC6 sessC6 (some "123456") parseDec 1 5).2.2 ≠ Res.createOk →
     (confirmar_operacion dbC6 sessC6 (some "123456") parseDec 1 5).2.2 ≠ Res.internalOk →
     (confirmar_operacion dbC6 sessC6 (some "123456") parseDec 1 5).2.2 ≠ Res.externalOk →
     (confirmar_operacion dbC6 sessC6 (some "123456") parseDec 1 5).1.accounts
       = dbC6.accounts ∧
     (confirmar_operacion dbC6 sessC6 (some "123456") parseDec 1 5).1.transactions
       = dbC6.transactions) :=
  otp_marked_used_in_separate_commit dbC6 sessC6 1 1
    (OpPayload.transfer_internal (some "1") (some "2") "30" "d")
    ⟨1, "a@x.com", "h", true, 0⟩ ⟨1, 1, "123456", 0, false⟩ (some "123456")
    parseDec 1 5 rfl rfl rfl (by decide) (by decide) (by decide) rfl
    (by decide) (by decide)

/-- C7: a staged internal transfer whose source-account balance drops below
the staged amount between staging (state `db0`, where the balance check
passed) and confirmation (state `db`) fails at confirmation with
InsufficientFunds even under a valid OTP code, and leaves every account
balance and the transaction history unchanged. -/
theorem confirmation_revalidates_funds
    (db0 db : DB) (sess : Session) (uid otp_id : Nat) (user : User) (otp : OtpCode)
    (fi ti : Option String) (am ds : String) (code_form : Option String)
    (parse : String → Option ℚ) (q : ℚ) (from_acc0 from_acc to_acc : Account)
    (now maxAge : Int)
    (hs1 : sess.user_id = some uid)
    (hs2 : sess.pending_operation = some (OpPayload.transfer_internal fi ti am ds))
    (hs3 : sess.pending_operation_otp_id = some otp_id)
    (hu : db.users.find? (fun u => decide (u.id = uid)) = some user)
    (hcode : ¬ pyStrip (code_form.getD "") = "")
    (ho : db.otps.find? (fun o => decide (o.id = otp_id ∧ o.user_id = user.id)) = some otp)
    (hused : otp.used = false)
    (hmatch : otp.code = pyStrip (code_form.getD ""))
    (hfresh : ¬ otp.created_at < now - maxAge)
    (hq : parseAmount parse am = some q)
    (hstage0 : findAccountBy db0.accounts fi user.id = some from_acc0)
    (hstage : q ≤ from_acc0.balance)
    (hfi : findAccountBy db.accounts fi user.id = some from_acc)
    (hti : findAccountBy db.accounts ti user.id = some to_acc)
    (hne : ¬ fi = ti)
    (hdrop : from_acc.balance < q) :
    (confirmar_operacion db sess code_form parse now maxAge).2.2
      = Res.errInsufficientFunds ∧
    (confirmar_operacion db sess code_form parse now maxAge).1.accounts = db.accounts ∧
    (confirmar_operacion db sess code_form parse now maxAge).1.transactions
      = db.transactions := by
  have hg := confirm_guard db sess uid otp_id _ user otp code_form parse now maxAge
    hs1 hs2 hs3 hu hcode ho hused hmatch hfresh
  have hexec : _execute_transfer_internal { db with otps := markUsed db.otps otp.id }
      user fi ti am (strOr (pyStrip ds) "Transferencia interna") parse now
      = ({ db with otps := markUsed db.otps otp.id }, Res.errInsufficientFunds) := by
    unfold _execute_transfer_internal
    rw [if_neg hne]
    simp only [hq]
    simp only [show ({ db with otps := markUsed db.otps otp.id } : DB).accounts
      = db.accounts from rfl, hfi, hti]
    rw [if_pos hdrop]
  rw [hg]
  simp only [dispatchOp]
  rw [hexec]
  exact ⟨rfl, rfl, rfl⟩

/-- Witness for C7: the staging-time state `dbC7a` has balance 50 ≥ 30, the
confirmation-time state `dbC7b` has balance 10 < 30. -/
theorem confirmation_revalidates_funds_witness :
    (confirmar_operacion dbC7b sessC7 (some "123456") parseDec 1 5).2.2
      = Res.errInsufficientFunds ∧
    (confirmar_operacion dbC7b sessC7 (some "123456") parseDec 1 5).1.accounts
      = dbC7b.accounts ∧
    (confirmar_operacion dbC7b sessC7 (some "123456") parseDec 1 5).1.transactions
      = dbC7b.transactions :=
  confirmation_revalidates_funds dbC7a dbC7b sessC7 1 1
    ⟨1, "a@x.com", "h", true, 0⟩ ⟨1, 1, "123456", 0, false⟩
    (some "1") (some "2") "30" "d" (some "123456") parseDec 30
    ⟨1, 1, "NEQUI", "A", 50⟩ ⟨1, 1, "NEQUI", "A", 10⟩ ⟨2, 1, "NU", "B", 0⟩ 1 5
    rfl rfl rfl rfl (by decide) rfl rfl (by decide) (by decide)
    (by with_unfolding_all rfl)
    (by with_unfolding_all rfl)
    (by with_unfolding_all decide)
    (by with_unfolding_all rfl)
    (by with_unfolding_all rfl)
    (by decide)
    (by with_unfolding_all decide)

/-- C8 counterexample: OTP code values are not unique, so the resent
challenge's randomly generated code can collide with the previous one; in
that case the code of the previously bound challenge (id 1, "123456") still
confirms the operation after the resend rebinds the descriptor to the new
challenge (id 2). -/
theorem resend_old_code_still_confirms_cex :
    stageC8.2.1.pending_operation_otp_id = some 1 ∧
    stageC8.1.otps.map (fun o => (o.id, o.code)) = [(1, "123456")] ∧
    resendC8.2.1.pending_operation_otp_id = some 2 ∧
    (confirmar_operacion resendC8.1 resendC8.2.1 (some "123456") parseDec 2 5).2.2
      = Res.internalOk := by
  with_unfolding_all decide

/-- C8 (amended): a resend appends a fresh unused challenge (the previous
challenge stays in place, still unused), rebinds the descriptor to the new
challenge id, and confirmation thereafter validates only against the new
challenge: the previous challenge's code is rejected as Invalid unless it
happens to coincide with the new challenge's randomly generated code (code
values carry no uniqueness constraint). -/
theorem resend_rebinds_to_new_challenge
    (db : DB) (sess : Session) (uid : Nat) (user : User) (op : OpPayload)
    (oldId : Nat) (oldOtp : OtpCode) (newCode : String)
    (parse : String → Option ℚ) (now now2 maxAge : Int)
    (hs1 : sess.user_id = some uid)
    (hs2 : sess.pending_operation = some op)
    (hs3 : sess.pending_operation_otp_id = some oldId)
    (hu : db.users.find? (fun u => decide (u.id = uid)) = some user)
    (hold : db.otps.find? (fun o => decide (o.id = oldId ∧ o.user_id = user.id))
      = some oldOtp) :
    reenviar_otp_operacion db sess newCode now =
      ({ db with otps := db.otps ++ [⟨nextOtpId db.otps, user.id, newCode, now, false⟩] },
       { sess with pending_operation_otp_id := some (nextOtpId db.otps) },
       Res.otpResent) ∧
    (¬ oldOtp.code = newCode → pyStrip oldOtp.code = oldOtp.code → ¬ oldOtp.code = "" →
      confirmar_operacion
        { db with otps := db.otps ++ [⟨nextOtpId db.otps, user.id, newCode, now, false⟩] }
        { sess with pending_operation_otp_id := some (nextOtpId db.otps) }
        (some oldOtp.code) parse now2 maxAge
      = ({ db with otps := db.otps ++ [⟨nextOtpId db.otps, user.id, newCode, now, false⟩] },
         { sess with pending_operation_otp_id := some (nextOtpId db.otps) },
         Res.invalidCode)) := by
  constructor
  · unfold reenviar_otp_operacion
    rw [hs1, hs2]
    simp only [hu]
  · intro hne hstrip hnonempty
    have hfind : List.find?
        (fun o => decide (o.id = nextOtpId db.otps ∧ o.user_id = user.id))
        (db.otps ++ [(⟨nextOtpId db.otps, user.id, newCode, now, false⟩ : OtpCode)])
        = some (⟨nextOtpId db.otps, user.id, newCode, now, false⟩ : OtpCode) := by
      rw [find?_append_none _ _ _
        (find?_otps_lt_none _ _ _ (fun o ho => otpId_lt_next _ _ ho))]
      simp
    unfold confirmar_operacion
    simp only [show ({ sess with pending_operation_otp_id := some (nextOtpId db.otps) }
        : Session).user_id = sess.user_id from rfl,
      show ({ sess with pending_operation_otp_id := some (nextOtpId db.otps) }
        : Session).pending_operation = sess.pending_operation from rfl,
      show ({ sess with pending_operation_otp_id := some (nextOtpId db.otps) }
        : Session).pending_operation_otp_id = some (nextOtpId db.otps) from rfl,
      hs1, hs2, hu,
      show ({ db with otps := db.otps ++
          [⟨nextOtpId db.otps, user.id, newCode, now, false⟩] } : DB).otps
        = db.otps ++ [⟨nextOtpId db.otps, user.id, newCode, now, false⟩] from rfl,
      hfind, Option.getD_some, hstrip]
    have hne' : ¬ newCode = oldOtp.code := fun e => hne e.symm
    simp [hnonempty, hne']

/-- Witness for the amended C8 with distinct old/new codes. -/
theorem resend_rebinds_to_new_challenge_witness :
    reenviar_otp_operacion dbC8w sessC8w "222222" 1 =
      ({ dbC8w with otps := dbC8w.otps ++ [⟨nextOtpId dbC8w.otps, 1, "222222", 1, false⟩] },
       { sessC8w with pending_operation_otp_id := some (nextOtpId dbC8w.otps) },
       Res.otpResent) ∧
    (¬ ("111111" : String) = "222222" → pyStrip "111111" = "111111" →
      ¬ ("111111" : String) = "" →
      confirmar_operacion
        { dbC8w with otps := dbC8w.otps ++ [⟨nextOtpId dbC8w.otps, 1, "222222", 1, false⟩] }
        { sessC8w with pending_operation_otp_id := some (nextOtpId dbC8w.otps) }
        (some "111111") parseDec 2 5
      = ({ dbC8w with otps := dbC8w.otps ++ [⟨nextOtpId dbC8w.otps, 1, "222222", 1, false⟩] },
         { sessC8w with pending_operation_otp_id := some (nextOtpId dbC8w.otps) },
         Res.invalidCode)) :=
  resend_rebinds_to_new_challenge dbC8w sessC8w 1 ⟨1, "a@x.com", "h", true, 0⟩
    (OpPayload.transfer_internal (some "1") (some "2") "30" "d") 1
    ⟨1, 1, "111111", 0, false⟩ "222222" parseDec 1 2 5 rfl rfl rfl rfl rfl

/-- C9: when a correct, unexpired, unused code is accepted but the
dispatched business execution fails, the bound challenge is nevertheless
consumed (used = true) and the Pending Operation Descriptor cleared, so the
failed operation cannot be retried with the same code: every later
confirmation attempt on the resulting session reports NoPendingOperation,
forcing a full re-staging. -/
theorem failed_revalidation_consumes_otp_and_descriptor
    (db : DB) (sess : Session) (uid otp_id : Nat) (op : OpPayload)
    (user : User) (otp : OtpCode) (code_form : Option String)
    (parse : String → Option ℚ) (now maxAge : Int)
    (hs1 : sess.user_id = some uid)
    (hs2 : sess.pending_operation = some op)
    (hs3 : sess.pending_operation_otp_id = some otp_id)
    (hu : db.users.find? (fun u => decide (u.id = uid)) = some user)
    (hcode : ¬ pyStrip (code_form.getD "") = "")
    (ho : db.otps.find? (fun o => decide (o.id = otp_id ∧ o.user_id = user.id)) = some otp)
    (hused : otp.used = false)
    (hmatch : otp.code = pyStrip (code_form.getD ""))
    (hfresh : ¬ otp.created_at < now - maxAge)
    (hfail : (confirmar_operacion db sess code_form parse now maxAge).2.2 ≠ Res.createOk ∧
             (confirmar_operacion db sess code_form parse now maxAge).2.2 ≠ Res.internalOk ∧
             (confirmar_operacion db sess code_form parse now maxAge).2.2 ≠ Res.externalOk) :
    (confirmar_operacion db sess code_form parse now maxAge).2.1.pending_operation
      = none ∧
    (confirmar_operacion db sess code_form parse now maxAge).2.1.pending_operation_otp_id
      = none ∧
    (∃ o ∈ (confirmar_operacion db sess code_form parse now maxAge).1.otps,
      o.id = otp.id ∧ o.used = true) ∧
    (∀ cf2 now2,
      confirmar_operacion (confirmar_operacion db sess code_form parse now maxAge).1
        (confirmar_operacion db sess code_form parse now maxAge).2.1 cf2 parse now2 maxAge
      = ((confirmar_operacion db sess code_form parse now maxAge).1,
         (confirmar_operacion db sess code_form parse now maxAge).2.1,
         Res.noPendingOperation)) := by
  have hg := confirm_guard db sess uid otp_id op user otp code_form parse now maxAge
    hs1 hs2 hs3 hu hcode ho hused hmatch hfresh
  rw [hg]
  refine ⟨rfl, rfl, ?_, ?_⟩
  · show ∃ o ∈ (dispatchOp { db with otps := markUsed db.otps otp.id }
        user op parse now).1.otps, o.id = otp.id ∧ o.used = true
    rw [dispatchOp_otps_unchanged]
    refine ⟨_, List.mem_map_of_mem _ (List.mem_of_find?_eq_some ho), ?_⟩
    rw [if_pos rfl]
    exact ⟨rfl, rfl⟩
  · intro cf2 now2
    unfold confirmar_operacion
    rw [show (_clear_pending_operation sess).user_id = sess.user_id from rfl, hs1]
    rfl

/-- Witness for C9 at the insufficient-funds scenario. -/
theorem failed_revalidation_consumes_otp_and_descriptor_witness :
    (confirmar_operacion dbC9 sessC9 (some "123456") parseDec 1 5).2.1.pending_operation
      = none ∧
    (confirmar_operacion dbC9 sessC9 (some "123456") parseDec 1 5).2.1.pending_operation_otp_id
      = none ∧
    (∃ o ∈ (confirmar_operacion dbC9 sessC9 (some "123456") parseDec 1 5).1.otps,
      o.id = 1 ∧ o.used = true) ∧
    (∀ cf2 now2,
      confirmar_operacion (confirmar_operacion dbC9 sessC9 (some "123456") parseDec 1 5).1
        (confirmar_operacion dbC9 sessC9 (some "123456") parseDec 1 5).2.1 cf2 parseDec
        now2 5
      = ((confirmar_operacion dbC9 sessC9 (some "123456") parseDec 1 5).1,
         (confirmar_operacion dbC9 sessC9 (some "123456") parseDec 1 5).2.1,
         Res.noPendingOperation)) :=
  failed_revalidation_consumes_otp_and_descriptor dbC9 sessC9 1 1
    (OpPayload.transfer_internal (some "1") (some "2") "30" "d")
    ⟨1, "a@x.com", "h", true, 0⟩ ⟨1, 1, "123456", 0, false⟩ (some "123456")
    parseDec 1 5 rfl rfl rfl rfl (by decide) rfl rfl (by decide) (by decide)
    ⟨by with_unfolding_all decide, by with_unfolding_all decide,
     by with_unfolding_all decide⟩

/-- C10: every successful registration — with no OTP challenge involved —
appends exactly one user and exactly one Account named "Cuenta Ahorros
Principal" with the column-default bank type "OTRO" and balance 1500000,
plus exactly one Transaction of +1500000 on that account; under referential
integrity of `Account.user_id` that account is the new user's only one, so
new users never start with zero accounts. -/
theorem registration_seeds_initial_account
    (db : DB) (sess : Session) (ef pf : Option String) (hashPw : String → String)
    (now : Int) (db' : DB)
    (haccfk : AccFK db)
    (h : register db sess ef pf hashPw now = (db', Res.registered)) :
    db'.otps = db.otps ∧
    db'.users = db.users ++ [⟨nextUserId db.users, pyStrip (pyLower (ef.getD "")),
      hashPw (pf.getD ""), false, now⟩] ∧
    db'.accounts = db.accounts ++ [⟨nextAccountId db.accounts, nextUserId db.users,
      "OTRO", "Cuenta Ahorros Principal", 1500000⟩] ∧
    db'.transactions = db.transactions ++ [⟨nextAccountId db.accounts, now,
      "Depósito inicial", 1500000, "ingreso", none, none⟩] ∧
    (db'.accounts.filter (fun a => decide (a.user_id = nextUserId db.users))).length
      = 1 := by
  have hsh := register_ok_shape _ _ _ _ _ _ _ h
  subst hsh
  refine ⟨rfl, rfl, rfl, rfl, ?_⟩
  show (List.filter (fun a => decide (a.user_id = nextUserId db.users))
    (db.accounts ++ [(⟨nextAccountId db.accounts, nextUserId db.users, "OTRO",
      "Cuenta Ahorros Principal", 1500000⟩ : Account)])).length = 1
  rw [List.filter_append]
  have h1 : db.accounts.filter (fun a => decide (a.user_id = nextUserId db.users))
      = [] := by
    rw [List.filter_eq_nil_iff]
    intro a ha
    simp only [decide_eq_true_eq]
    obtain ⟨u, hu, he⟩ := haccfk a ha
    rw [he]
    exact Nat.ne_of_lt (userId_lt_next _ _ hu)
  rw [h1]
  simp [List.filter_cons]

/-- Witness for C10: registration on the empty database. -/
theorem registration_seeds_initial_account_witness :
    (register dbC10 ⟨none, none, none, none⟩ (some "a@x.com") (some "pw")
      (fun s => s) 0).1.otps = dbC10.otps ∧
    (register dbC10 ⟨none, none, none, none⟩ (some "a@x.com") (some "pw")
      (fun s => s) 0).1.users = dbC10.users ++ [⟨nextUserId dbC10.users,
      pyStrip (pyLower ((some "a@x.com" : Option String).getD "")),
      (fun s : String => s) ((some "pw" : Option String).getD ""), false, 0⟩] ∧
    (register dbC10 ⟨none, none, none, none⟩ (some "a@x.com") (some "pw")
      (fun s => s) 0).1.accounts = dbC10.accounts ++ [⟨nextAccountId dbC10.accounts,
      nextUserId dbC10.users, "OTRO", "Cuenta Ahorros Principal", 1500000⟩] ∧
    (register dbC10 ⟨none, none, none, none⟩ (some "a@x.com") (some "pw")
      (fun s => s) 0).1.transactions = dbC10.transactions ++
      [⟨nextAccountId dbC10.accounts, 0, "Depósito inicial", 1500000, "ingreso",
        none, none⟩] ∧
    ((register dbC10 ⟨none, none, none, none⟩ (some "a@x.com") (some "pw")
      (fun s => s) 0).1.accounts.filter
        (fun a => decide (a.user_id = nextUserId dbC10.users))).length = 1 :=
  registration_seeds_initial_account dbC10 ⟨none, none, none, none⟩ (some "a@x.com")
    (some "pw") (fun s => s) 0
    (register dbC10 ⟨none, none, none, none⟩ (some "a@x.com") (some "pw")
      (fun s => s) 0).1
    (by decide) (by decide)
